import Mathlib

/-!
Shallow embedding of the TSS session-orchestration layer of the devctl CLI
(package cmd, file local/cmd/devctl/main.go) from the vultisig-cluster
repository, together with proofs about the properties the specification
states for it.

Modelling conventions:
* The network world (relay and remote HTTP parties) is an explicit `Env`
  value: Boolean success flags for one-shot calls, a `Nat → Option (List String)`
  oracle for the `GetSession` poll sequence (`none` models a transport error),
  and a cancellation predicate indexed by elapsed seconds.
* The poll loop sleeps one second per iteration, so the iteration index is
  also the elapsed wall-clock time in seconds; the `time.After(KeygenTimeout)`
  deadline becomes a fuel of `KeygenTimeoutSec / pollIntervalSec` iterations.
* Go pointer mutation (`vault.Signers = parties`) is modelled by returning the
  final state of the caller's vault object (`vaultAfter`) next to the returned
  value.
* Go machine integers are `Int` with an explicit wrap to the two's-complement
  64-bit range (`int64Wrap`).
-/

/-- One entry of the vault's keyshare list (struct KeyShare). -/
structure KeyShare where
  PubKey : String
  Keyshare : String
deriving DecidableEq

/-- The persisted vault record (struct LocalVault).  The Go field
`ResharePrefix` is rendered as `ResharePrefix_`. -/
structure LocalVault where
  Name : String
  PublicKeyECDSA : String
  PublicKeyEdDSA : String
  HexChainCode : String
  LocalPartyID : String
  Signers : List String
  KeyShares : List KeyShare
  ResharePrefix_ : String
  CreatedAt : String
  LibType : Int
deriving DecidableEq

/-- Result of one HTTP join request to a remote party: a transport error or a
response with an HTTP status code. -/
inductive JoinResp where
  | netErr : JoinResp
  | http : Nat → JoinResp
deriving DecidableEq

/-- The Go code accepts a join request exactly when the request went through
and the status code is 200 (`resp.StatusCode != http.StatusOK` aborts). -/
def JoinResp.isOk : JoinResp → Bool
  | .http 200 => true
  | _ => false

/-- Environment of one operation run: the session identifier and random
material drawn at the start, plus the behaviour of the relay and of the
remote parties. -/
structure Env where
  sessionID : String
  hexChainCode : String
  createdAt : String
  registerOk : Bool
  fastVaultResp : JoinResp
  verifierResp : JoinResp
  cancel : Nat → Bool
  getSession : Nat → Option (List String)
  startOk : Bool
  completeOk : Bool

/-- Error outcomes of an operation, one per `return nil, err` site. -/
inductive TssError where
  | registerSession : TssError
  | fastVaultJoin : TssError
  | verifierJoin : TssError
  | waitCancelled : TssError
  | waitTimeout : TssError
  | startSession : TssError
deriving DecidableEq

/-- Poll interval of `waitForParties` in seconds (`time.Sleep(time.Second)`). -/
def pollIntervalSec : Nat := 1

/-- KeygenTimeout = 3 * time.Minute, in seconds. -/
def KeygenTimeoutSec : Nat := 180

/-- MessagePollTimeout = 2 * time.Minute, in seconds.  Declared next to
KeygenTimeout in the source; `waitForParties` never reads it. -/
def MessagePollTimeoutSec : Nat := 120

/-- Outcome of the recruitment wait. -/
inductive WaitOutcome where
  | members : List String → WaitOutcome
  | cancelled : WaitOutcome
  | timedOut : WaitOutcome
deriving DecidableEq

/-- Outcome of the recruitment wait together with the number of `GetSession`
calls the loop performed. -/
structure WaitResult where
  outcome : WaitOutcome
  pollsDone : Nat
deriving DecidableEq

/-- Loop body of `waitForParties`: at elapsed second `t` with `fuel`
iterations left before the `time.After` deadline fires, check cancellation,
then poll `GetSession`; a transport error is swallowed and retried after the
one-second sleep; a member list at or above the expected count is returned
as is. -/
def waitLoop (cancel : Nat → Bool) (getSession : Nat → Option (List String))
    (expected : Nat) : Nat → Nat → WaitResult
  | t, 0 => if cancel t then ⟨.cancelled, 0⟩ else ⟨.timedOut, 0⟩
  | t, fuel + 1 =>
    if cancel t then ⟨.cancelled, 0⟩
    else
      match getSession t with
      | none =>
        let r := waitLoop cancel getSession expected (t + 1) fuel
        ⟨r.outcome, r.pollsDone + 1⟩
      | some parties =>
        if expected ≤ parties.length then ⟨.members parties, 1⟩
        else
          let r := waitLoop cancel getSession expected (t + 1) fuel
          ⟨r.outcome, r.pollsDone + 1⟩

/-- Method waitForParties: polls every `pollIntervalSec` second under the
`KeygenTimeoutSec` deadline, whatever the operation. -/
def waitForParties (cancel : Nat → Bool) (getSession : Nat → Option (List String))
    (expected : Nat) : WaitResult :=
  waitLoop cancel getSession expected 0 (KeygenTimeoutSec / pollIntervalSec)

/-- Result record of an operation that does not touch a caller-owned vault:
the returned value or error, the number of `GetSession` polls performed, and
the member list passed to `StartSession` when that call was made. -/
structure RunOut (α : Type) where
  result : Except TssError α
  pollsDone : Nat
  startedWith : Option (List String)

/-- Result record of the two reshare operations; `vaultAfter` is the state of
the caller's `vault` object (the pointee of the Go argument) after the call. -/
structure ReshareOut where
  result : Except TssError LocalVault
  vaultAfter : LocalVault
  pollsDone : Nat
  startedWith : Option (List String)

/-- Method TSSService.Keygen.  Registers the session, asks the Fast Vault
Server to join (fatal on failure), waits for 2 parties, starts the session
and builds the vault literal of the source: only Name, HexChainCode,
LocalPartyID, Signers, CreatedAt and LibType are set; both public key
fields, the keyshare list and the reshare prefix stay at their zero
values. -/
def Keygen (env : Env) (localPartyID : String) (vaultName : String) :
    RunOut LocalVault :=
  if env.registerOk = false then ⟨.error .registerSession, 0, none⟩
  else if env.fastVaultResp.isOk = false then ⟨.error .fastVaultJoin, 0, none⟩
  else
    let w := waitForParties env.cancel env.getSession 2
    match w.outcome with
    | .cancelled => ⟨.error .waitCancelled, w.pollsDone, none⟩
    | .timedOut => ⟨.error .waitTimeout, w.pollsDone, none⟩
    | .members parties =>
      if env.startOk = false then
        ⟨.error .startSession, w.pollsDone, some parties⟩
      else
        ⟨.ok { Name := vaultName, PublicKeyECDSA := "", PublicKeyEdDSA := "",
               HexChainCode := env.hexChainCode, LocalPartyID := localPartyID,
               Signers := parties, KeyShares := [], ResharePrefix_ := "",
               CreatedAt := env.createdAt, LibType := 1 },
          w.pollsDone, some parties⟩

/-- Method TSSService.Reshare.  The Fast Vault Server join result is only
logged (`continuing anyway`); a Verifier join failure aborts before any
polling; on success the caller's vault object itself is mutated
(`vault.Signers = parties`) and returned. -/
def Reshare (env : Env) (vault : LocalVault) : ReshareOut :=
  if env.registerOk = false then ⟨.error .registerSession, vault, 0, none⟩
  else if env.verifierResp.isOk = false then ⟨.error .verifierJoin, vault, 0, none⟩
  else
    let w := waitForParties env.cancel env.getSession (vault.Signers.length + 2)
    match w.outcome with
    | .cancelled => ⟨.error .waitCancelled, vault, w.pollsDone, none⟩
    | .timedOut => ⟨.error .waitTimeout, vault, w.pollsDone, none⟩
    | .members parties =>
      if env.startOk = false then
        ⟨.error .startSession, vault, w.pollsDone, some parties⟩
      else
        ⟨.ok { vault with Signers := parties },
          { vault with Signers := parties }, w.pollsDone, some parties⟩

/-- Method TSSService.ReshareWithPlugin.  Same recruitment as Reshare, but on
success a new vault literal is built, copying every field of the old vault
except Signers (the observed member list) and the reshare prefix (the first
8 characters of the session identifier); the caller's vault object is left
untouched. -/
def ReshareWithPlugin (env : Env) (vault : LocalVault) : ReshareOut :=
  if env.registerOk = false then ⟨.error .registerSession, vault, 0, none⟩
  else if env.verifierResp.isOk = false then ⟨.error .verifierJoin, vault, 0, none⟩
  else
    let w := waitForParties env.cancel env.getSession (vault.Signers.length + 2)
    match w.outcome with
    | .cancelled => ⟨.error .waitCancelled, vault, w.pollsDone, none⟩
    | .timedOut => ⟨.error .waitTimeout, vault, w.pollsDone, none⟩
    | .members parties =>
      if env.startOk = false then
        ⟨.error .startSession, vault, w.pollsDone, some parties⟩
      else
        ⟨.ok { Name := vault.Name, PublicKeyECDSA := vault.PublicKeyECDSA,
               PublicKeyEdDSA := vault.PublicKeyEdDSA,
               HexChainCode := vault.HexChainCode,
               LocalPartyID := vault.LocalPartyID, Signers := parties,
               KeyShares := vault.KeyShares,
               ResharePrefix_ := env.sessionID.take 8,
               CreatedAt := vault.CreatedAt, LibType := vault.LibType },
          vault, w.pollsDone, some parties⟩

/-- One signature tuple returned by the keysign operations. -/
structure KeysignResult where
  R : String
  S : String
  RecoveryID : String
  DerSignature : String
deriving DecidableEq

/-- Method TSSService.KeysignWithVerifier: register, ask the Verifier to join
(fatal on failure), wait for 2 parties with the same `waitForParties` as
every other operation, start, and return one placeholder tuple per input
message. -/
def KeysignWithVerifier (env : Env) (messages : List String) :
    RunOut (List KeysignResult) :=
  if env.registerOk = false then ⟨.error .registerSession, 0, none⟩
  else if env.verifierResp.isOk = false then ⟨.error .verifierJoin, 0, none⟩
  else
    let w := waitForParties env.cancel env.getSession 2
    match w.outcome with
    | .cancelled => ⟨.error .waitCancelled, w.pollsDone, none⟩
    | .timedOut => ⟨.error .waitTimeout, w.pollsDone, none⟩
    | .members parties =>
      if env.startOk = false then
        ⟨.error .startSession, w.pollsDone, some parties⟩
      else
        ⟨.ok (messages.map fun _ =>
            { R := "placeholder_r", S := "placeholder_s", RecoveryID := "1b",
              DerSignature := "placeholder_der" }),
          w.pollsDone, some parties⟩

/-- Method TSSService.Keysign (Fast Vault Server variant): the Fast Vault
Server join failure is fatal here, then the same 2-party wait, start, and
one placeholder tuple per message. -/
def Keysign (env : Env) (messages : List String) :
    RunOut (List KeysignResult) :=
  if env.registerOk = false then ⟨.error .registerSession, 0, none⟩
  else if env.fastVaultResp.isOk = false then ⟨.error .fastVaultJoin, 0, none⟩
  else
    let w := waitForParties env.cancel env.getSession 2
    match w.outcome with
    | .cancelled => ⟨.error .waitCancelled, w.pollsDone, none⟩
    | .timedOut => ⟨.error .waitTimeout, w.pollsDone, none⟩
    | .members parties =>
      if env.startOk = false then
        ⟨.error .startSession, w.pollsDone, some parties⟩
      else
        ⟨.ok (messages.map fun _ =>
            { R := "placeholder", S := "placeholder", RecoveryID := "00",
              DerSignature := "placeholder" }),
          w.pollsDone, some parties⟩

/-- Function runVaultReshare of cmd/vault.go, reduced to its persistence
behaviour: the stored record is loaded, `Reshare` runs on the loaded copy,
and only on success is `SaveVault(newVault)` executed, replacing the stored
record with the returned vault; on error the stored record is untouched. -/
def runVaultReshare (env : Env) (storedVault : LocalVault) :
    LocalVault × Except TssError Unit :=
  let out := Reshare env storedVault
  match out.result with
  | .error e => (storedVault, .error e)
  | .ok newVault => (newVault, .ok ())

/-- Wrap of an integer to the signed 64-bit range, as Go `int` arithmetic
does on a 64-bit platform. -/
def int64Wrap (x : Int) : Int := (x + 2 ^ 63) % 2 ^ 64 - 2 ^ 63

/-- Accumulation step of the hash loop in generateServerPartyID:
`h = 31*h + int(c)` in wrapping 64-bit arithmetic, `c` ranging over the
runes of the session identifier. -/
def hashStep (h : Int) (c : Char) : Int := int64Wrap (31 * h + (c.toNat : Int))

/-- The 31-based string hash computed by generateServerPartyID. -/
def sessionHash (sessionID : String) : Int := sessionID.data.foldl hashStep 0

/-- Function generateServerPartyID: hash the session identifier, negate a
negative hash (which, as in Go, wraps), render in decimal, keep the last 5
characters when longer, and prepend "Server-". -/
def generateServerPartyID (sessionID : String) : String :=
  let h := sessionHash sessionID
  let h2 := if h < 0 then int64Wrap (-h) else h
  let suffix := toString h2
  let suffix2 :=
    if 5 < suffix.length then suffix.drop (suffix.length - 5) else suffix
  "Server-" ++ suffix2

/-- Last 5 (or all, when fewer) characters of the decimal rendering of the
absolute value of the session hash. -/
def serverSuffix (sessionID : String) : String :=
  let d := toString (sessionHash sessionID).natAbs
  if 5 < d.length then d.drop (d.length - 5) else d

/-- Request literal built by requestFastVaultKeygen (struct
VaultCreateRequest), the fields the claims mention. -/
structure VaultCreateRequest where
  Name : String
  SessionID : String
  HexEncryptionKey : String
  HexChainCode : String
  LocalPartyId : String
  LibType : Int
deriving DecidableEq

/-- Body of requestFastVaultKeygen up to the HTTP send: the request carries
the server party identifier generated from the session identifier. -/
def mkVaultCreateRequest (name sessionID hexEncKey hexChainCode : String) :
    VaultCreateRequest :=
  { Name := name, SessionID := sessionID, HexEncryptionKey := hexEncKey,
    HexChainCode := hexChainCode,
    LocalPartyId := generateServerPartyID sessionID, LibType := 1 }

/-- Request literal built by requestFastVaultReshare (struct
FastVaultReshareRequest), the fields the claims mention. -/
structure FastVaultReshareRequest where
  Name : String
  PublicKey : String
  SessionID : String
  HexEncryptionKey : String
  LocalPartyId : String
  OldParties : List String
  LibType : Int
deriving DecidableEq

/-- Body of requestFastVaultReshare up to the HTTP send: the same server
party identifier, generated from the same session identifier. -/
def mkFastVaultReshareRequest (vault : LocalVault)
    (sessionID hexEncKey : String) : FastVaultReshareRequest :=
  { Name := vault.Name, PublicKey := vault.PublicKeyECDSA,
    SessionID := sessionID, HexEncryptionKey := hexEncKey,
    LocalPartyId := generateServerPartyID sessionID,
    OldParties := vault.Signers, LibType := vault.LibType }

/-!
Helper lemmas about the recruitment wait loop, the shape of successful and
failed operation runs, and the server-party-identifier hash.
-/

lemma waitLoop_step_cancel (c : Nat → Bool) (gs : Nat → Option (List String))
    (e t fuel : Nat) (hc : c t = true) :
    waitLoop c gs e t (fuel + 1) = ⟨.cancelled, 0⟩ := by
  simp [waitLoop, hc]

lemma waitLoop_relayErr (c : Nat → Bool) (gs : Nat → Option (List String))
    (e t fuel : Nat) (hc : c t = false) (hg : gs t = none) :
    waitLoop c gs e t (fuel + 1) =
      ⟨(waitLoop c gs e (t + 1) fuel).outcome,
        (waitLoop c gs e (t + 1) fuel).pollsDone + 1⟩ := by
  simp [waitLoop, hc, hg]

lemma waitLoop_quorum (c : Nat → Bool) (gs : Nat → Option (List String))
    (e t fuel : Nat) (ms : List String) (hc : c t = false)
    (hg : gs t = some ms) (hlen : e ≤ ms.length) :
    waitLoop c gs e t (fuel + 1) = ⟨.members ms, 1⟩ := by
  simp [waitLoop, hc, hg, hlen]

lemma waitLoop_below (c : Nat → Bool) (gs : Nat → Option (List String))
    (e t fuel : Nat) (ms : List String) (hc : c t = false)
    (hg : gs t = some ms) (hlen : ms.length < e) :
    waitLoop c gs e t (fuel + 1) =
      ⟨(waitLoop c gs e (t + 1) fuel).outcome,
        (waitLoop c gs e (t + 1) fuel).pollsDone + 1⟩ := by
  simp [waitLoop, hc, hg, Nat.not_le_of_lt hlen]

lemma waitLoop_members_first (c : Nat → Bool) (gs : Nat → Option (List String))
    (e : Nat) (ms : List String) :
    ∀ (j fuel t : Nat), j < fuel →
    (∀ i, i ≤ j → c (t + i) = false) →
    (∀ i, i < j → ∀ l, gs (t + i) = some l → l.length < e) →
    gs (t + j) = some ms → e ≤ ms.length →
    waitLoop c gs e t fuel = ⟨.members ms, j + 1⟩ := by
  intro j
  induction j with
  | zero =>
    intro fuel t hj hc hpre hq hlen
    obtain ⟨f, rfl⟩ : ∃ f, fuel = f + 1 := ⟨fuel - 1, by omega⟩
    exact waitLoop_quorum c gs e t f ms (by simpa using hc 0 (le_refl 0))
      (by simpa using hq) hlen
  | succ j ih =>
    intro fuel t hj hc hpre hq hlen
    obtain ⟨f, rfl⟩ : ∃ f, fuel = f + 1 := ⟨fuel - 1, by omega⟩
    have hc0 : c t = false := by simpa using hc 0 (by omega)
    have hrec : waitLoop c gs e (t + 1) f = ⟨.members ms, j + 1⟩ := by
      apply ih f (t + 1) (by omega)
      · intro i hi
        have := hc (i + 1) (by omega)
        simpa [Nat.add_assoc, Nat.add_comm 1 i] using this
      · intro i hi l hl
        exact hpre (i + 1) (by omega) l (by simpa [Nat.add_assoc, Nat.add_comm 1 i] using hl)
      · have := hq
        simpa [Nat.add_assoc, Nat.add_comm 1 j] using this
      · exact hlen
    cases hg : gs t with
    | none =>
      rw [waitLoop_relayErr c gs e t f hc0 hg, hrec]
    | some l =>
      have hl : l.length < e := by
        have := hpre 0 (by omega) l
        simpa [hg] using this
      rw [waitLoop_below c gs e t f l hc0 hg hl, hrec]

lemma waitLoop_members_src (c : Nat → Bool) (gs : Nat → Option (List String))
    (e : Nat) :
    ∀ (fuel t : Nat) (ms : List String),
    (waitLoop c gs e t fuel).outcome = .members ms →
    e ≤ ms.length ∧ ∃ u, gs u = some ms := by
  intro fuel
  induction fuel with
  | zero =>
    intro t ms h
    by_cases hc : c t = true <;> simp [waitLoop, hc] at h
  | succ f ih =>
    intro t ms h
    by_cases hc : c t = true
    · simp [waitLoop, hc] at h
    · replace hc : c t = false := by simpa using hc
      cases hg : gs t with
      | none =>
        rw [waitLoop_relayErr c gs e t f hc hg] at h
        exact ih (t + 1) ms h
      | some l =>
        by_cases hlen : e ≤ l.length
        · rw [waitLoop_quorum c gs e t f l hc hg hlen] at h
          simp at h
          subst h
          exact ⟨hlen, t, hg⟩
        · rw [waitLoop_below c gs e t f l hc hg (by omega)] at h
          exact ih (t + 1) ms h

lemma waitLoop_timedOut (c : Nat → Bool) (gs : Nat → Option (List String))
    (e : Nat) :
    ∀ (fuel t : Nat),
    (∀ i, i ≤ fuel → c (t + i) = false) →
    (∀ i, i < fuel → ∀ l, gs (t + i) = some l → l.length < e) →
    waitLoop c gs e t fuel = ⟨.timedOut, fuel⟩ := by
  intro fuel
  induction fuel with
  | zero =>
    intro t hc hpre
    simp [waitLoop, show c t = false by simpa using hc 0 (le_refl 0)]
  | succ f ih =>
    intro t hc hpre
    have hc0 : c t = false := by simpa using hc 0 (by omega)
    have hrec : waitLoop c gs e (t + 1) f = ⟨.timedOut, f⟩ := by
      apply ih (t + 1)
      · intro i hi
        have := hc (i + 1) (by omega)
        simpa [Nat.add_assoc, Nat.add_comm 1 i] using this
      · intro i hi l hl
        exact hpre (i + 1) (by omega) l (by simpa [Nat.add_assoc, Nat.add_comm 1 i] using hl)
    cases hg : gs t with
    | none => rw [waitLoop_relayErr c gs e t f hc0 hg, hrec]
    | some l =>
      have hl : l.length < e := by
        have := hpre 0 (by omega) l
        simpa [hg] using this
      rw [waitLoop_below c gs e t f l hc0 hg hl, hrec]

lemma Keygen_ok_shape (env : Env) (lp nm : String) (v : LocalVault)
    (h : (Keygen env lp nm).result = .ok v) :
    (waitForParties env.cancel env.getSession 2).outcome = .members v.Signers
    ∧ (Keygen env lp nm).startedWith = some v.Signers
    ∧ v.PublicKeyECDSA = "" ∧ v.PublicKeyEdDSA = ""
    ∧ v.Name = nm ∧ v.LocalPartyID = lp ∧ v.HexChainCode = env.hexChainCode := by
  unfold Keygen at h ⊢
  cases hreg : env.registerOk <;> simp [hreg] at h ⊢
  cases hfv : env.fastVaultResp.isOk <;> simp [hfv] at h ⊢
  cases hw : (waitForParties env.cancel env.getSession 2).outcome <;> simp [hw] at h ⊢
  cases hs : env.startOk <;> simp [hs] at h ⊢
  subst h
  simp

lemma Reshare_ok_shape (env : Env) (v nv : LocalVault)
    (h : (Reshare env v).result = .ok nv) :
    (waitForParties env.cancel env.getSession (v.Signers.length + 2)).outcome
        = .members nv.Signers
    ∧ (Reshare env v).startedWith = some nv.Signers
    ∧ (Reshare env v).vaultAfter = nv
    ∧ nv = { v with Signers := nv.Signers } := by
  unfold Reshare at h ⊢
  cases hreg : env.registerOk <;> simp [hreg] at h ⊢
  cases hver : env.verifierResp.isOk <;> simp [hver] at h ⊢
  cases hw : (waitForParties env.cancel env.getSession (v.Signers.length + 2)).outcome <;>
    simp [hw] at h ⊢
  cases hs : env.startOk <;> simp [hs] at h ⊢
  subst h
  simp

lemma ReshareWithPlugin_ok_shape (env : Env) (v nv : LocalVault)
    (h : (ReshareWithPlugin env v).result = .ok nv) :
    (waitForParties env.cancel env.getSession (v.Signers.length + 2)).outcome
        = .members nv.Signers
    ∧ (ReshareWithPlugin env v).startedWith = some nv.Signers
    ∧ (ReshareWithPlugin env v).vaultAfter = v
    ∧ nv = { v with Signers := nv.Signers, ResharePrefix_ := env.sessionID.take 8 } := by
  unfold ReshareWithPlugin at h ⊢
  cases hreg : env.registerOk <;> simp [hreg] at h ⊢
  cases hver : env.verifierResp.isOk <;> simp [hver] at h ⊢
  cases hw : (waitForParties env.cancel env.getSession (v.Signers.length + 2)).outcome <;>
    simp [hw] at h ⊢
  cases hs : env.startOk <;> simp [hs] at h ⊢
  subst h
  simp

lemma ReshareWithPlugin_vaultAfter (env : Env) (v : LocalVault) :
    (ReshareWithPlugin env v).vaultAfter = v := by
  unfold ReshareWithPlugin
  cases hreg : env.registerOk <;> simp [hreg]
  cases hver : env.verifierResp.isOk <;> simp [hver]
  cases hw : (waitForParties env.cancel env.getSession (v.Signers.length + 2)).outcome <;>
    simp [hw]
  cases hs : env.startOk <;> simp [hs]

lemma Reshare_vaultAfter_frame (env : Env) (v : LocalVault) :
    (Reshare env v).vaultAfter.Name = v.Name
    ∧ (Reshare env v).vaultAfter.PublicKeyECDSA = v.PublicKeyECDSA
    ∧ (Reshare env v).vaultAfter.PublicKeyEdDSA = v.PublicKeyEdDSA
    ∧ (Reshare env v).vaultAfter.HexChainCode = v.HexChainCode
    ∧ (Reshare env v).vaultAfter.LocalPartyID = v.LocalPartyID
    ∧ (Reshare env v).vaultAfter.KeyShares = v.KeyShares
    ∧ (Reshare env v).vaultAfter.ResharePrefix_ = v.ResharePrefix_
    ∧ (Reshare env v).vaultAfter.CreatedAt = v.CreatedAt
    ∧ (Reshare env v).vaultAfter.LibType = v.LibType := by
  unfold Reshare
  cases hreg : env.registerOk <;> simp [hreg]
  cases hver : env.verifierResp.isOk <;> simp [hver]
  cases hw : (waitForParties env.cancel env.getSession (v.Signers.length + 2)).outcome <;>
    simp [hw]
  cases hs : env.startOk <;> simp [hs]

lemma Reshare_error_frame (env : Env) (v : LocalVault) (e : TssError)
    (h : (Reshare env v).result = .error e) :
    (Reshare env v).vaultAfter = v := by
  unfold Reshare at h ⊢
  cases hreg : env.registerOk <;> simp [hreg] at h ⊢
  cases hver : env.verifierResp.isOk <;> simp [hver] at h ⊢
  cases hw : (waitForParties env.cancel env.getSession (v.Signers.length + 2)).outcome <;>
    simp [hw] at h ⊢
  cases hs : env.startOk <;> simp [hs] at h ⊢

lemma Reshare_verifier_refused (env : Env) (v : LocalVault)
    (hreg : env.registerOk = true) (hver : env.verifierResp.isOk = false) :
    Reshare env v = ⟨.error .verifierJoin, v, 0, none⟩ := by
  unfold Reshare
  simp [hreg, hver]

lemma Reshare_ignores_fastVault (env : Env) (v : LocalVault) (r : JoinResp) :
    Reshare { env with fastVaultResp := r } v = Reshare env v := rfl

lemma int64Wrap_range (x : Int) : -2 ^ 63 ≤ int64Wrap x ∧ int64Wrap x < 2 ^ 63 := by
  unfold int64Wrap
  have h1 : (0 : Int) ≤ (x + 2 ^ 63) % 2 ^ 64 := Int.emod_nonneg _ (by norm_num)
  have h2 : (x + 2 ^ 63) % 2 ^ 64 < 2 ^ 64 := Int.emod_lt_of_pos _ (by norm_num)
  norm_num at h1 h2 ⊢
  omega

lemma int64Wrap_id (x : Int) (h1 : -2 ^ 63 ≤ x) (h2 : x < 2 ^ 63) : int64Wrap x = x := by
  unfold int64Wrap
  norm_num at h1 h2 ⊢
  rw [Int.emod_eq_of_lt (by omega) (by omega)]
  omega

lemma sessionHash_range (s : String) :
    -2 ^ 63 ≤ sessionHash s ∧ sessionHash s < 2 ^ 63 := by
  unfold sessionHash
  suffices hyp : ∀ (l : List Char) (h : Int), -2 ^ 63 ≤ h → h < 2 ^ 63 →
      -2 ^ 63 ≤ List.foldl hashStep h l ∧ List.foldl hashStep h l < 2 ^ 63 by
    exact hyp s.data 0 (by norm_num) (by norm_num)
  intro l
  induction l with
  | nil => intro h h1 h2; exact ⟨h1, h2⟩
  | cons c cs ih =>
    intro h h1 h2
    have hr := int64Wrap_range (31 * h + (c.toNat : Int))
    exact ih (hashStep h c) hr.1 hr.2


lemma generateServerPartyID_eq (sid : String) :
    generateServerPartyID sid = "Server-" ++ serverSuffix sid := by
  have hr := sessionHash_range sid
  norm_num at hr
  simp only [generateServerPartyID, serverSuffix]
  by_cases hneg : sessionHash sid < 0
  · by_cases hmin : sessionHash sid = -9223372036854775808
    · rw [hmin]
      decide
    · have h2 : -sessionHash sid < 2 ^ 63 := by norm_num; omega
      rw [if_pos hneg, int64Wrap_id _ (by norm_num; omega) h2]
      obtain ⟨n, hn⟩ := Int.eq_ofNat_of_zero_le (show 0 ≤ -sessionHash sid by omega)
      have habs : (sessionHash sid).natAbs = n := by omega
      rw [hn, habs]
      rfl
  · rw [if_neg hneg]
    obtain ⟨n, hn⟩ := Int.eq_ofNat_of_zero_le (show 0 ≤ sessionHash sid by omega)
    rw [hn]
    rfl

lemma serverSuffix_short (sid : String) : (serverSuffix sid).length ≤ 5 := by
  unfold serverSuffix
  set d := toString (sessionHash sid).natAbs with hd
  by_cases h : 5 < d.length
  · simp only [if_pos h]
    have hlen : (d.drop (d.length - 5)).data.length = d.data.length - (d.length - 5) := by
      rw [String.data_drop, List.length_drop]
    show (d.drop (d.length - 5)).data.length ≤ 5
    rw [hlen]
    have hdl : d.length = d.data.length := rfl
    omega
  · simp only [if_neg h]
    omega

/-!
Concrete run environments used by the per-claim counterexamples and
witnesses.
-/

/-- Environment of a Keygen run in which the relay reports three members at
the first poll and every remote call succeeds. -/
def envC1 : Env :=
  { sessionID := "11111111-aaaa", hexChainCode := "cc11", createdAt := "2026-01-01T00:00:00Z",
    registerOk := true, fastVaultResp := .http 200, verifierResp := .http 200,
    cancel := fun _ => false,
    getSession := fun _ => some ["devctl", "Server-11111", "extra"],
    startOk := true, completeOk := true }

/-- The vault the `envC1` Keygen run returns. -/
def vaultC1 : LocalVault :=
  { Name := "test-vault", PublicKeyECDSA := "", PublicKeyEdDSA := "",
    HexChainCode := "cc11", LocalPartyID := "devctl",
    Signers := ["devctl", "Server-11111", "extra"], KeyShares := [],
    ResharePrefix_ := "", CreatedAt := "2026-01-01T00:00:00Z", LibType := 1 }

/-- C1: the run of `envC1` succeeds, yet its vault has three signers, not
two, and both public key fields are empty, because the keygen protocol is
stubbed and the vault literal never sets them. -/
theorem C1_counterexample :
    (Keygen envC1 "devctl" "test-vault").result = .ok vaultC1
    ∧ ¬(vaultC1.Signers.length = 2
        ∧ vaultC1.PublicKeyECDSA ≠ "" ∧ vaultC1.PublicKeyEdDSA ≠ "") :=
  ⟨rfl, by decide⟩

/-- C1 (amended): every successful Keygen run returns a vault whose signers
list is the observed member list, of length at least 2, and whose public key
fields are both the empty string. -/
theorem C1_amended (env : Env) (lp nm : String) (v : LocalVault)
    (h : (Keygen env lp nm).result = .ok v) :
    2 ≤ v.Signers.length ∧ v.PublicKeyECDSA = "" ∧ v.PublicKeyEdDSA = "" := by
  obtain ⟨hw, -, he, hd, -⟩ := Keygen_ok_shape env lp nm v h
  unfold waitForParties at hw
  have hlen :=
    (waitLoop_members_src env.cancel env.getSession 2
      (KeygenTimeoutSec / pollIntervalSec) 0 v.Signers hw).1
  exact ⟨hlen, he, hd⟩

/-- C1 witness: the amended statement at the concrete `envC1` run. -/
theorem C1_witness :
    2 ≤ vaultC1.Signers.length
    ∧ vaultC1.PublicKeyECDSA = "" ∧ vaultC1.PublicKeyEdDSA = "" :=
  C1_amended envC1 "devctl" "test-vault" vaultC1 rfl

/-- Input vault of the C2 run, with two signers and a nonempty reshare
prefix. -/
def vaultC2 : LocalVault :=
  { Name := "v2", PublicKeyECDSA := "02aabb", PublicKeyEdDSA := "eddsa2",
    HexChainCode := "cc22", LocalPartyID := "devctl",
    Signers := ["devctl", "Server-22222"],
    KeyShares := [{ PubKey := "02aabb", Keyshare := "ks" }],
    ResharePrefix_ := "oldpfx", CreatedAt := "2025-05-05T00:00:00Z", LibType := 1 }

/-- Environment of a successful Reshare run over `vaultC2`: four members at
the first poll, every remote call succeeds. -/
def envC2 : Env :=
  { sessionID := "22222222-bbbb", hexChainCode := "cc22", createdAt := "2026-02-02T00:00:00Z",
    registerOk := true, fastVaultResp := .http 200, verifierResp := .http 200,
    cancel := fun _ => false,
    getSession := fun _ => some ["devctl", "Server-22222", "verifier-2222", "plugin-2"],
    startOk := true, completeOk := true }

/-- Environment of a Reshare run whose Verifier join is refused with
HTTP 500. -/
def envC2e : Env :=
  { sessionID := "22222222-cccc", hexChainCode := "cc22", createdAt := "2026-02-02T00:00:00Z",
    registerOk := true, fastVaultResp := .http 200, verifierResp := .http 500,
    cancel := fun _ => false, getSession := fun _ => some [],
    startOk := true, completeOk := true }

/-- C2: the successful Reshare run of `envC2` mutates the caller's vault
object in place, contradicting the claim that `oldVault` is never mutated. -/
theorem C2_counterexample :
    (Reshare envC2 vaultC2).result =
      .ok { vaultC2 with
              Signers := ["devctl", "Server-22222", "verifier-2222", "plugin-2"] }
    ∧ (Reshare envC2 vaultC2).vaultAfter ≠ vaultC2 :=
  ⟨rfl, by decide⟩

/-- C2 (amended): ReshareWithPlugin never mutates the caller's vault;
Reshare mutates at most the Signers field, leaving every other field of the
caller's vault object unchanged, and leaves it entirely unchanged whenever
the operation returns an error. -/
theorem C2_amended (env : Env) (v : LocalVault) :
    (ReshareWithPlugin env v).vaultAfter = v
    ∧ ((Reshare env v).vaultAfter.Name = v.Name
       ∧ (Reshare env v).vaultAfter.PublicKeyECDSA = v.PublicKeyECDSA
       ∧ (Reshare env v).vaultAfter.PublicKeyEdDSA = v.PublicKeyEdDSA
       ∧ (Reshare env v).vaultAfter.HexChainCode = v.HexChainCode
       ∧ (Reshare env v).vaultAfter.LocalPartyID = v.LocalPartyID
       ∧ (Reshare env v).vaultAfter.KeyShares = v.KeyShares
       ∧ (Reshare env v).vaultAfter.ResharePrefix_ = v.ResharePrefix_
       ∧ (Reshare env v).vaultAfter.CreatedAt = v.CreatedAt
       ∧ (Reshare env v).vaultAfter.LibType = v.LibType)
    ∧ (∀ e, (Reshare env v).result = .error e → (Reshare env v).vaultAfter = v) :=
  ⟨ReshareWithPlugin_vaultAfter env v, Reshare_vaultAfter_frame env v,
    fun e h => Reshare_error_frame env v e h⟩

/-- C2 witness: the amended statement at the concrete inputs, the error case
discharged by the refused-Verifier run of `envC2e`. -/
theorem C2_witness :
    (ReshareWithPlugin envC2 vaultC2).vaultAfter = vaultC2
    ∧ (Reshare envC2 vaultC2).vaultAfter.Name = vaultC2.Name
    ∧ (Reshare envC2e vaultC2).vaultAfter = vaultC2 :=
  ⟨(C2_amended envC2 vaultC2).1, (C2_amended envC2 vaultC2).2.1.1,
    (C2_amended envC2e vaultC2).2.2 .verifierJoin rfl⟩

/-- Input vault of the C3 run, with a nonempty reshare prefix. -/
def vaultC3 : LocalVault :=
  { Name := "v3", PublicKeyECDSA := "03ccdd", PublicKeyEdDSA := "eddsa3",
    HexChainCode := "cc33", LocalPartyID := "devctl",
    Signers := ["devctl", "Server-33333"],
    KeyShares := [{ PubKey := "03ccdd", Keyshare := "ks3" }],
    ResharePrefix_ := "oldpfx3", CreatedAt := "2025-03-03T00:00:00Z", LibType := 1 }

/-- Environment of a successful reshare run over `vaultC3`. -/
def envC3 : Env :=
  { sessionID := "33333333-dddd", hexChainCode := "cc33", createdAt := "2026-03-03T00:00:00Z",
    registerOk := true, fastVaultResp := .http 200, verifierResp := .http 200,
    cancel := fun _ => false,
    getSession := fun _ => some ["devctl", "Server-33333", "verifier-3333", "plugin-3"],
    startOk := true, completeOk := true }

/-- Vault returned by the plain Reshare run of `envC3`. -/
def nvC3r : LocalVault :=
  { vaultC3 with
      Signers := ["devctl", "Server-33333", "verifier-3333", "plugin-3"] }

/-- Vault returned by the ReshareWithPlugin run of `envC3`. -/
def nvC3p : LocalVault :=
  { vaultC3 with
      Signers := ["devctl", "Server-33333", "verifier-3333", "plugin-3"],
      ResharePrefix_ := "33333333" }

/-- C3: the successful plain Reshare run of `envC3` returns a vault whose
reshare prefix equals the old vault's nonempty prefix, contradicting the
claim that the prefix is freshly derived and differs. -/
theorem C3_counterexample :
    (Reshare envC3 vaultC3).result = .ok nvC3r
    ∧ nvC3r.ResharePrefix_ = vaultC3.ResharePrefix_ :=
  ⟨rfl, rfl⟩

/-- C3 (amended): a successful ReshareWithPlugin run returns a vault
identical to the old one except that Signers becomes the observed member
list and the reshare prefix becomes the first 8 characters of the new
session identifier (with no guarantee that it differs from the previous
prefix); a successful plain Reshare run changes only Signers and keeps the
old reshare prefix. -/
theorem C3_amended (env : Env) (v nv : LocalVault) :
    ((ReshareWithPlugin env v).result = .ok nv →
      nv.Name = v.Name ∧ nv.PublicKeyECDSA = v.PublicKeyECDSA
      ∧ nv.PublicKeyEdDSA = v.PublicKeyEdDSA
      ∧ nv.HexChainCode = v.HexChainCode ∧ nv.LocalPartyID = v.LocalPartyID
      ∧ nv.KeyShares = v.KeyShares ∧ nv.CreatedAt = v.CreatedAt
      ∧ nv.LibType = v.LibType
      ∧ nv.ResharePrefix_ = env.sessionID.take 8
      ∧ (ReshareWithPlugin env v).startedWith = some nv.Signers)
    ∧ ((Reshare env v).result = .ok nv → nv = { v with Signers := nv.Signers }) := by
  constructor
  · intro h
    obtain ⟨-, hs, -, hv⟩ := ReshareWithPlugin_ok_shape env v nv h
    exact ⟨by rw [hv], by rw [hv], by rw [hv], by rw [hv], by rw [hv],
      by rw [hv], by rw [hv], by rw [hv], by rw [hv], hs⟩
  · intro h
    exact (Reshare_ok_shape env v nv h).2.2.2

/-- C3 witness: the amended statement at the concrete `envC3` runs. -/
theorem C3_witness :
    (nvC3p.ResharePrefix_ = envC3.sessionID.take 8
     ∧ nvC3p.Name = vaultC3.Name)
    ∧ nvC3r = { vaultC3 with Signers := nvC3r.Signers } :=
  ⟨⟨((C3_amended envC3 vaultC3 nvC3p).1 rfl).2.2.2.2.2.2.2.2.1,
    ((C3_amended envC3 vaultC3 nvC3p).1 rfl).1⟩,
    (C3_amended envC3 vaultC3 nvC3r).2 rfl⟩

/-- Input vault of the C4 run, with two signers. -/
def vaultC4 : LocalVault :=
  { Name := "v4", PublicKeyECDSA := "04eeff", PublicKeyEdDSA := "eddsa4",
    HexChainCode := "cc44", LocalPartyID := "devctl",
    Signers := ["devctl", "Server-44444"], KeyShares := [],
    ResharePrefix_ := "", CreatedAt := "2025-04-04T00:00:00Z", LibType := 1 }

/-- Environment of a reshare run over `vaultC4` in which the quorum-reaching
poll reports five members although only four were expected. -/
def envC4 : Env :=
  { sessionID := "44444444-eeee", hexChainCode := "cc44", createdAt := "2026-04-04T00:00:00Z",
    registerOk := true, fastVaultResp := .http 200, verifierResp := .http 200,
    cancel := fun _ => false,
    getSession := fun _ =>
      some ["devctl", "Server-44444", "verifier-4444", "plugin-4", "extra-party"],
    startOk := true, completeOk := true }

/-- C4: the successful Reshare run of `envC4` returns five signers although
the old vault had two, contradicting the claimed exact length
`len(oldVault.signers) + 2 = 4`. -/
theorem C4_counterexample :
    (Reshare envC4 vaultC4).result =
      .ok { vaultC4 with
              Signers := ["devctl", "Server-44444", "verifier-4444", "plugin-4",
                          "extra-party"] }
    ∧ ¬(["devctl", "Server-44444", "verifier-4444", "plugin-4",
         "extra-party"].length = vaultC4.Signers.length + 2) :=
  ⟨rfl, by decide⟩

/-- C4 (amended): every successful reshare run (plain or with plugin)
returns a vault with at least `len(oldVault.signers) + 2` signers and with
both public keys unchanged from the old vault. -/
theorem C4_amended (env : Env) (v nv : LocalVault) :
    ((Reshare env v).result = .ok nv →
      v.Signers.length + 2 ≤ nv.Signers.length
      ∧ nv.PublicKeyECDSA = v.PublicKeyECDSA
      ∧ nv.PublicKeyEdDSA = v.PublicKeyEdDSA)
    ∧ ((ReshareWithPlugin env v).result = .ok nv →
      v.Signers.length + 2 ≤ nv.Signers.length
      ∧ nv.PublicKeyECDSA = v.PublicKeyECDSA
      ∧ nv.PublicKeyEdDSA = v.PublicKeyEdDSA) := by
  constructor
  · intro h
    obtain ⟨hw, -, -, hv⟩ := Reshare_ok_shape env v nv h
    unfold waitForParties at hw
    have hlen :=
      (waitLoop_members_src env.cancel env.getSession (v.Signers.length + 2)
        (KeygenTimeoutSec / pollIntervalSec) 0 nv.Signers hw).1
    rw [hv]
    exact ⟨hlen, rfl, rfl⟩
  · intro h
    obtain ⟨hw, -, -, hv⟩ := ReshareWithPlugin_ok_shape env v nv h
    unfold waitForParties at hw
    have hlen :=
      (waitLoop_members_src env.cancel env.getSession (v.Signers.length + 2)
        (KeygenTimeoutSec / pollIntervalSec) 0 nv.Signers hw).1
    rw [hv]
    exact ⟨hlen, rfl, rfl⟩

/-- C4 witness: the amended statement at the concrete `envC4` run. -/
theorem C4_witness :
    vaultC4.Signers.length + 2 ≤
      ({ vaultC4 with
           Signers := ["devctl", "Server-44444", "verifier-4444", "plugin-4",
                       "extra-party"] } : LocalVault).Signers.length :=
  ((C4_amended envC4 vaultC4
    { vaultC4 with
        Signers := ["devctl", "Server-44444", "verifier-4444", "plugin-4",
                    "extra-party"] }).1 rfl).1

/-- Input vault of the C5 witness run. -/
def vaultC5 : LocalVault :=
  { Name := "v5", PublicKeyECDSA := "05aa", PublicKeyEdDSA := "eddsa5",
    HexChainCode := "cc55", LocalPartyID := "devctl",
    Signers := ["devctl", "Server-55555"], KeyShares := [],
    ResharePrefix_ := "", CreatedAt := "2025-05-05T00:00:00Z", LibType := 1 }

/-- Environment of a Reshare run whose Verifier join returns HTTP 500. -/
def envC5 : Env :=
  { sessionID := "55555555-ffff", hexChainCode := "cc55", createdAt := "2026-05-05T00:00:00Z",
    registerOk := true, fastVaultResp := .http 200, verifierResp := .http 500,
    cancel := fun _ => false, getSession := fun _ => some [],
    startOk := true, completeOk := true }

/-- C5: in both reshare operations the Fast Vault Server join outcome has no
effect on the run (it is only logged and recruitment continues), while a
failed Verifier join makes the operation return an error with zero
`GetSession` polls performed, no session start, and the caller's vault
unchanged. -/
theorem C5_theorem (env : Env) (v : LocalVault) :
    (∀ r, Reshare { env with fastVaultResp := r } v = Reshare env v
        ∧ ReshareWithPlugin { env with fastVaultResp := r } v
            = ReshareWithPlugin env v)
    ∧ (env.registerOk = true → env.verifierResp.isOk = false →
        Reshare env v = ⟨.error .verifierJoin, v, 0, none⟩
        ∧ ReshareWithPlugin env v = ⟨.error .verifierJoin, v, 0, none⟩) := by
  refine ⟨fun r => ⟨rfl, rfl⟩, fun hreg hver => ⟨?_, ?_⟩⟩
  · unfold Reshare
    simp [hreg, hver]
  · unfold ReshareWithPlugin
    simp [hreg, hver]

/-- C5 witness: the statement at the refused-Verifier run of `envC5`. -/
theorem C5_witness :
    Reshare { envC5 with fastVaultResp := JoinResp.netErr } vaultC5
        = Reshare envC5 vaultC5
    ∧ Reshare envC5 vaultC5 = ⟨.error .verifierJoin, vaultC5, 0, none⟩ :=
  ⟨((C5_theorem envC5 vaultC5).1 JoinResp.netErr).1,
    ((C5_theorem envC5 vaultC5).2 rfl rfl).1⟩

lemma waitForParties_timeout_at_180 (c : Nat → Bool)
    (gs : Nat → Option (List String)) (e : Nat) (he : 0 < e)
    (hc : ∀ i, i ≤ 180 → c i = false)
    (hg : ∀ i, i < 180 → gs i = some []) :
    waitForParties c gs e = ⟨.timedOut, 180⟩ := by
  unfold waitForParties
  have h180 : KeygenTimeoutSec / pollIntervalSec = 180 := rfl
  rw [h180]
  apply waitLoop_timedOut
  · intro i hi
    rw [Nat.zero_add]
    exact hc i hi
  · intro i hi l hl
    rw [Nat.zero_add, hg i hi] at hl
    obtain rfl : ([] : List String) = l := by injection hl
    simpa using he

/-- Environment of a KeysignWithVerifier run in which the Verifier only
joins after 150 seconds of polling. -/
def envC6 : Env :=
  { sessionID := "66666666-aaaa", hexChainCode := "cc66", createdAt := "2026-06-06T00:00:00Z",
    registerOk := true, fastVaultResp := .http 200, verifierResp := .http 200,
    cancel := fun _ => false,
    getSession := fun t => if t < 150 then some [] else some ["devctl", "verifier-6666"],
    startOk := true, completeOk := true }

/-- C6: the KeysignWithVerifier run of `envC6` reaches quorum only at the
151st one-second poll, 31 seconds past the claimed 2-minute deadline, and
still succeeds, because `waitForParties` always uses the 3-minute
KeygenTimeout. -/
theorem C6_counterexample :
    (KeysignWithVerifier envC6 ["msg1"]).result =
      .ok [{ R := "placeholder_r", S := "placeholder_s", RecoveryID := "1b",
             DerSignature := "placeholder_der" }]
    ∧ (KeysignWithVerifier envC6 ["msg1"]).pollsDone = 151
    ∧ MessagePollTimeoutSec / pollIntervalSec < 151 :=
  ⟨rfl, rfl, by decide⟩

/-- C6 (amended): the recruitment wait swallows a transient relay error and
retries after the one-second backoff, and every operation — Keygen, Reshare,
ReshareWithPlugin, Keysign without verifier, and Keysign with verifier —
uses the same 3-minute KeygenTimeout deadline of 180 one-second polls; the
2-minute MessagePollTimeout is declared but unused by the wait. -/
theorem C6_amended :
    (∀ (c : Nat → Bool) (gs : Nat → Option (List String)) (e t fuel : Nat),
        c t = false → gs t = none →
        waitLoop c gs e t (fuel + 1) =
          ⟨(waitLoop c gs e (t + 1) fuel).outcome,
            (waitLoop c gs e (t + 1) fuel).pollsDone + 1⟩)
    ∧ KeygenTimeoutSec / pollIntervalSec = 180
    ∧ MessagePollTimeoutSec / pollIntervalSec = 120
    ∧ (∀ (env : Env) (lp nm : String) (v : LocalVault) (msgs : List String),
        env.registerOk = true → env.fastVaultResp.isOk = true →
        env.verifierResp.isOk = true →
        (∀ i, i ≤ 180 → env.cancel i = false) →
        (∀ i, i < 180 → env.getSession i = some []) →
        Keygen env lp nm = ⟨.error .waitTimeout, 180, none⟩
        ∧ Reshare env v = ⟨.error .waitTimeout, v, 180, none⟩
        ∧ ReshareWithPlugin env v = ⟨.error .waitTimeout, v, 180, none⟩
        ∧ Keysign env msgs = ⟨.error .waitTimeout, 180, none⟩
        ∧ KeysignWithVerifier env msgs = ⟨.error .waitTimeout, 180, none⟩) := by
  refine ⟨fun c gs e t fuel hc hg => waitLoop_relayErr c gs e t fuel hc hg,
    rfl, rfl, fun env lp nm v msgs hreg hfv hver hc hg => ?_⟩
  have hw2 : waitForParties env.cancel env.getSession 2 = ⟨.timedOut, 180⟩ :=
    waitForParties_timeout_at_180 env.cancel env.getSession 2 (by omega) hc hg
  have hwr : waitForParties env.cancel env.getSession (v.Signers.length + 2)
      = ⟨.timedOut, 180⟩ :=
    waitForParties_timeout_at_180 env.cancel env.getSession _ (by omega) hc hg
  refine ⟨?_, ?_, ?_, ?_, ?_⟩
  · unfold Keygen
    simp [hreg, hfv, hw2]
  · unfold Reshare
    simp [hreg, hver, hwr]
  · unfold ReshareWithPlugin
    simp [hreg, hver, hwr]
  · unfold Keysign
    simp [hreg, hfv, hw2]
  · unfold KeysignWithVerifier
    simp [hreg, hver, hw2]

/-- Environment of a run in which the relay always answers with an empty
member list. -/
def envC6t : Env :=
  { sessionID := "66666666-bbbb", hexChainCode := "cc66", createdAt := "2026-06-06T00:00:00Z",
    registerOk := true, fastVaultResp := .http 200, verifierResp := .http 200,
    cancel := fun _ => false, getSession := fun _ => some [],
    startOk := true, completeOk := true }

/-- Input vault of the C6 witness run. -/
def vaultC6t : LocalVault :=
  { Name := "v6", PublicKeyECDSA := "06aa", PublicKeyEdDSA := "eddsa6",
    HexChainCode := "cc66", LocalPartyID := "devctl",
    Signers := ["devctl", "Server-66666"], KeyShares := [],
    ResharePrefix_ := "", CreatedAt := "2025-06-06T00:00:00Z", LibType := 1 }

/-- C6 witness: the amended statement at the concrete never-quorate run of
`envC6t` and at a concrete relay error step. -/
theorem C6_witness :
    Keygen envC6t "devctl" "w6" = ⟨.error .waitTimeout, 180, none⟩
    ∧ KeysignWithVerifier envC6t ["m"] = ⟨.error .waitTimeout, 180, none⟩
    ∧ waitLoop (fun _ => false) (fun _ => none) 2 0 (3 + 1) =
        ⟨(waitLoop (fun _ => false) (fun _ => none) 2 1 3).outcome,
          (waitLoop (fun _ => false) (fun _ => none) 2 1 3).pollsDone + 1⟩ := by
  obtain ⟨h1, h2, h3, h4, h5⟩ :=
    C6_amended.2.2.2 envC6t "devctl" "w6" vaultC6t ["m"] rfl rfl rfl
      (fun i _ => rfl) (fun i _ => rfl)
  exact ⟨h1, h5, C6_amended.1 (fun _ => false) (fun _ => none) 2 0 3 rfl rfl⟩

/-- C7: in every quorum-reaching run of Keygen, Reshare or
ReshareWithPlugin, the member list observed at the quorum-reaching
`GetSession` call is, verbatim, both the list passed to `StartSession` and
the signers field of the resulting vault. -/
theorem C7_theorem (env : Env) (lp nm : String) (v nv : LocalVault) :
    ((Keygen env lp nm).result = .ok nv →
      (Keygen env lp nm).startedWith = some nv.Signers
      ∧ ∃ t, env.getSession t = some nv.Signers)
    ∧ ((Reshare env v).result = .ok nv →
      (Reshare env v).startedWith = some nv.Signers
      ∧ ∃ t, env.getSession t = some nv.Signers)
    ∧ ((ReshareWithPlugin env v).result = .ok nv →
      (ReshareWithPlugin env v).startedWith = some nv.Signers
      ∧ ∃ t, env.getSession t = some nv.Signers) := by
  refine ⟨fun h => ?_, fun h => ?_, fun h => ?_⟩
  · obtain ⟨hw, hs, -⟩ := Keygen_ok_shape env lp nm nv h
    unfold waitForParties at hw
    exact ⟨hs, (waitLoop_members_src env.cancel env.getSession 2
      (KeygenTimeoutSec / pollIntervalSec) 0 nv.Signers hw).2⟩
  · obtain ⟨hw, hs, -⟩ := Reshare_ok_shape env v nv h
    unfold waitForParties at hw
    exact ⟨hs, (waitLoop_members_src env.cancel env.getSession
      (v.Signers.length + 2)
      (KeygenTimeoutSec / pollIntervalSec) 0 nv.Signers hw).2⟩
  · obtain ⟨hw, hs, -⟩ := ReshareWithPlugin_ok_shape env v nv h
    unfold waitForParties at hw
    exact ⟨hs, (waitLoop_members_src env.cancel env.getSession
      (v.Signers.length + 2)
      (KeygenTimeoutSec / pollIntervalSec) 0 nv.Signers hw).2⟩

/-- Environment of a successful Keygen run with two members at the first
poll. -/
def envC7 : Env :=
  { sessionID := "77777777-aaaa", hexChainCode := "cc77", createdAt := "2026-07-07T00:00:00Z",
    registerOk := true, fastVaultResp := .http 200, verifierResp := .http 200,
    cancel := fun _ => false,
    getSession := fun _ => some ["devctl", "Server-77777"],
    startOk := true, completeOk := true }

/-- The vault the `envC7` Keygen run returns. -/
def nvC7 : LocalVault :=
  { Name := "w7", PublicKeyECDSA := "", PublicKeyEdDSA := "",
    HexChainCode := "cc77", LocalPartyID := "devctl",
    Signers := ["devctl", "Server-77777"], KeyShares := [],
    ResharePrefix_ := "", CreatedAt := "2026-07-07T00:00:00Z", LibType := 1 }

/-- C7 witness: the statement at the concrete `envC7` Keygen run. -/
theorem C7_witness :
    (Keygen envC7 "devctl" "w7").startedWith = some nvC7.Signers
    ∧ ∃ t, envC7.getSession t = some nvC7.Signers :=
  (C7_theorem envC7 "devctl" "w7" nvC7 nvC7).1 rfl

lemma runVaultReshare_of_error (env : Env) (stored : LocalVault) (e : TssError)
    (h : (Reshare env stored).result = .error e) :
    runVaultReshare env stored = (stored, .error e) := by
  simp [runVaultReshare, h]

/-- C8: whenever session registration, the required Verifier join, or the
quorum wait fails, the reshare command returns an error and the persisted
vault record is unchanged — no save occurs. -/
theorem C8_theorem (env : Env) (stored : LocalVault)
    (h : env.registerOk = false ∨ env.verifierResp.isOk = false
         ∨ (∀ ms, (waitForParties env.cancel env.getSession
              (stored.Signers.length + 2)).outcome ≠ .members ms)) :
    (∃ e, (runVaultReshare env stored).2 = .error e)
    ∧ (runVaultReshare env stored).1 = stored := by
  have herr : ∃ e, (Reshare env stored).result = .error e := by
    rcases h with h | h | h
    · refine ⟨.registerSession, ?_⟩
      unfold Reshare
      simp [h]
    · cases hreg : env.registerOk
      · refine ⟨.registerSession, ?_⟩
        unfold Reshare
        simp [hreg]
      · refine ⟨.verifierJoin, ?_⟩
        unfold Reshare
        simp [hreg, h]
    · cases hreg : env.registerOk
      · refine ⟨.registerSession, ?_⟩
        unfold Reshare
        simp [hreg]
      · cases hver : env.verifierResp.isOk
        · refine ⟨.verifierJoin, ?_⟩
          unfold Reshare
          simp [hreg, hver]
        · cases hw : (waitForParties env.cancel env.getSession
              (stored.Signers.length + 2)).outcome with
          | members ms => exact absurd hw (h ms)
          | cancelled =>
            refine ⟨.waitCancelled, ?_⟩
            unfold Reshare
            simp [hreg, hver, hw]
          | timedOut =>
            refine ⟨.waitTimeout, ?_⟩
            unfold Reshare
            simp [hreg, hver, hw]
  obtain ⟨e, he⟩ := herr
  rw [runVaultReshare_of_error env stored e he]
  exact ⟨⟨e, rfl⟩, rfl⟩

/-- Environment of a reshare run whose session registration fails. -/
def envC8 : Env :=
  { sessionID := "88888888-aaaa", hexChainCode := "cc88", createdAt := "2026-08-08T00:00:00Z",
    registerOk := false, fastVaultResp := .http 200, verifierResp := .http 200,
    cancel := fun _ => false, getSession := fun _ => some [],
    startOk := true, completeOk := true }

/-- Stored vault of the C8 witness run. -/
def vaultC8 : LocalVault :=
  { Name := "v8", PublicKeyECDSA := "08aa", PublicKeyEdDSA := "eddsa8",
    HexChainCode := "cc88", LocalPartyID := "devctl",
    Signers := ["devctl", "Server-88888"], KeyShares := [],
    ResharePrefix_ := "p8", CreatedAt := "2025-08-08T00:00:00Z", LibType := 1 }

/-- C8 witness: the statement at the failed-registration run of `envC8`. -/
theorem C8_witness :
    (∃ e, (runVaultReshare envC8 vaultC8).2 = .error e)
    ∧ (runVaultReshare envC8 vaultC8).1 = vaultC8 :=
  C8_theorem envC8 vaultC8 (Or.inl rfl)

/-- C9: if cancellation never fires through poll `j`, every earlier
`GetSession` response is below the expected count, and the poll at second
`j` (inside the deadline) reports at least the expected count, then the
recruitment wait returns exactly that member list having performed exactly
`j + 1` polls — it never polls again after observing quorum. -/
theorem C9_theorem (c : Nat → Bool) (gs : Nat → Option (List String))
    (e j : Nat) (ms : List String)
    (hj : j < KeygenTimeoutSec / pollIntervalSec)
    (hc : ∀ i, i ≤ j → c i = false)
    (hpre : ∀ i, i < j → ∀ l, gs i = some l → l.length < e)
    (hq : gs j = some ms) (hlen : e ≤ ms.length) :
    waitForParties c gs e = ⟨.members ms, j + 1⟩ := by
  unfold waitForParties
  exact waitLoop_members_first c gs e ms j (KeygenTimeoutSec / pollIntervalSec) 0 hj
    (fun i hi => by rw [Nat.zero_add]; exact hc i hi)
    (fun i hi l hl => hpre i hi l (by rwa [Nat.zero_add] at hl))
    (by rwa [Nat.zero_add]) hlen

/-- C9 witness: the statement at a concrete run whose very first poll
reaches quorum; the wait returns after exactly one poll. -/
theorem C9_witness :
    waitForParties (fun _ => false) (fun _ => some ["cli", "srv"]) 2
      = ⟨.members ["cli", "srv"], 1⟩ :=
  C9_theorem (fun _ => false) (fun _ => some ["cli", "srv"]) 2 0 ["cli", "srv"]
    (by decide) (fun i _ => rfl) (fun i hi => absurd hi (Nat.not_lt_zero i)) rfl
    (by decide)

/-- C10: generateServerPartyID is a total function of the session identifier
alone, returning "Server-" followed by at most 5 characters taken from the
end of the decimal rendering of the absolute value of the 31-based string
hash, and the keygen and reshare join requests built for one session both
carry exactly this identifier. -/
theorem C10_theorem (sid : String) (v : LocalVault) (nm key cc : String) :
    generateServerPartyID sid = "Server-" ++ serverSuffix sid
    ∧ (serverSuffix sid).length ≤ 5
    ∧ (mkVaultCreateRequest nm sid key cc).LocalPartyId
        = generateServerPartyID sid
    ∧ (mkFastVaultReshareRequest v sid key).LocalPartyId
        = generateServerPartyID sid :=
  ⟨generateServerPartyID_eq sid, serverSuffix_short sid, rfl, rfl⟩
